import Mathlib

/-!
# Verification of the kubeai model-proxy core

Shallow embedding of the request-routing core:
* `internal/modelproxy/handler.go` — the synchronous HTTP handler with retry
  (`Handler.ServeHTTP`, `Handler.proxyHTTP`, `Handler.isRetryCode`);
* the messenger worker (receive loop, `parseRequest`, `sendResponse`,
  `consecutiveErrBackoff`);
* the `apiutils` model/adapter split utilities and the load-balancer
  endpoint group, modelled from the spec where their sources are not part
  of this tree.

Go strings are modelled as Lean `String`s, byte-level strings for the
split utilities as `List Char`; machine integers that cannot overflow in
the modelled executions are `Nat`/`Int`.
-/

namespace KubeAI

/-! ## `modelproxy.Handler` — data and retry-code classification -/

/-- Outcome of one `LoadBalancer.AwaitBestAddress` call, as seen by
`proxyHTTP`: either an address, or an error classified the way the Go code
classifies it (`context.Canceled`, `context.DeadlineExceeded`, other). -/
inductive AwaitResult where
  | ok (addr : String)
  | errCanceled
  | errDeadline
  | errOther
  deriving Repr, DecidableEq

/-- Outcome of one backend HTTP attempt made by the reverse proxy:
either a response with a status code (reaches `ModifyResponse`), or a
transport error with no response (reaches `ErrorHandler` directly). -/
inductive BackendOutcome where
  | response (status : Nat)
  | transportError
  deriving Repr, DecidableEq

/-- The environment a single inbound request runs against: the address
returned by the i-th `AwaitBestAddress` call, the backend outcome of the
attempt numbered `attempt`, and whether the per-attempt outbound request
context is still alive (`r.Context().Err() == nil`) when `ErrorHandler`
checks it. -/
structure ProxyEnv where
  await : Nat → AwaitResult
  backend : Nat → BackendOutcome
  ctxOk : Nat → Bool

/-- `modelproxy.Handler`: `retryCodes == nil` in Go is `none` here
(the nil check in `isRetryCode` falls back to `defaultRetryCodes`). -/
structure Handler where
  maxRetries : Nat
  retryCodes : Option (List Nat)
  deriving Repr, DecidableEq

/-- `defaultRetryCodes`: 500, 502, 503, 504. -/
def defaultRetryCodes : List Nat := [500, 502, 503, 504]

/-- `Handler.isRetryCode`. -/
def Handler.isRetryCode (h : Handler) (status : Nat) : Bool :=
  match h.retryCodes with
  | some codes => codes.contains status
  | none => defaultRetryCodes.contains status

/-- What the handler ends up writing to the client: a JSON error envelope
via `sendErrorResponse`, a verbatim pass-through of the backend response,
or nothing at all (the `ErrRetry`-with-cancelled-context corner of
`ErrorHandler`). -/
inductive ClientResponse where
  | errorEnvelope (status : Nat)
  | passthrough (status : Nat)
  | noneWritten
  deriving Repr, DecidableEq

/-- Observable trace of one `proxyHTTP` execution (including its recursive
retries): how many `AwaitBestAddress` calls were made, which addresses they
returned, the `pr.attempt` value at each backend attempt, the body bytes
sent on each backend attempt, how many completion callbacks were invoked
(each `defer decrementInflight()`), and the final client response. -/
structure ProxyTrace where
  awaitCalls : Nat
  addrs : List String
  attemptVals : List Nat
  bodies : List String
  completions : Nat
  response : ClientResponse
  deriving Repr, DecidableEq

/-- The number of backend requests sent is the number of attempts recorded. -/
def ProxyTrace.backendAttempts (t : ProxyTrace) : Nat := t.attemptVals.length

/-- A trace that made one `AwaitBestAddress` call that failed, wrote
`resp`, and did nothing else. -/
def awaitFailTrace (resp : ClientResponse) : ProxyTrace :=
  { awaitCalls := 1, addrs := [], attemptVals := [], bodies := [],
    completions := 0, response := resp }

/-- A trace for a frame that obtained `addr`, made the single backend
attempt numbered `attempt` with body `body`, fired its deferred completion,
and wrote `resp`. -/
def finalAttemptTrace (addr : String) (attempt : Nat) (body : String)
    (resp : ClientResponse) : ProxyTrace :=
  { awaitCalls := 1, addrs := [addr], attemptVals := [attempt],
    bodies := [body], completions := 1, response := resp }

/-- Prepend this frame's `AwaitBestAddress` call, backend attempt and
deferred completion onto the trace of the recursive retry. -/
def retryTrace (addr : String) (attempt : Nat) (body : String)
    (sub : ProxyTrace) : ProxyTrace :=
  { awaitCalls := 1 + sub.awaitCalls, addrs := addr :: sub.addrs,
    attemptVals := attempt :: sub.attemptVals, bodies := body :: sub.bodies,
    completions := 1 + sub.completions, response := sub.response }

/-- `Handler.proxyHTTP`. Each call: `AwaitBestAddress` (error → 500 on
`context.Canceled`, 504 on deadline, 504 otherwise); otherwise one backend
attempt. `ModifyResponse` returns `ErrRetry` iff the status is a retry code
and `pr.attempt < h.maxRetries`; `ErrorHandler` retries (incrementing
`pr.attempt` and recursing) iff the error is non-nil, the outbound request
context is alive, and `pr.attempt < h.maxRetries`; when it does not retry
it writes a 502 envelope unless the error is `ErrRetry` (then the
retry-exhausted response has already passed through `ModifyResponse`
verbatim — the `noneWritten` corner only arises with a dead context).
The body is the buffered `pr.body`, replayed on every attempt;
`defer decrementInflight()` fires once per successful await. -/
def proxyHTTP (h : Handler) (env : ProxyEnv) (body : String)
    (callIdx attempt : Nat) : ProxyTrace :=
  match env.await callIdx with
  | .errCanceled => awaitFailTrace (.errorEnvelope 500)
  | .errDeadline => awaitFailTrace (.errorEnvelope 504)
  | .errOther => awaitFailTrace (.errorEnvelope 504)
  | .ok addr =>
    match env.backend attempt with
    | .response status =>
      if hr : h.isRetryCode status = true ∧ attempt < h.maxRetries then
        -- ModifyResponse returned ErrRetry; ErrorHandler decides.
        if hc : env.ctxOk attempt = true ∧ attempt < h.maxRetries then
          retryTrace addr attempt body
            (proxyHTTP h env body (callIdx + 1) (attempt + 1))
        else
          finalAttemptTrace addr attempt body .noneWritten
      else
        finalAttemptTrace addr attempt body (.passthrough status)
    | .transportError =>
      if hc : env.ctxOk attempt = true ∧ attempt < h.maxRetries then
        retryTrace addr attempt body
          (proxyHTTP h env body (callIdx + 1) (attempt + 1))
      else
        finalAttemptTrace addr attempt body (.errorEnvelope 502)
termination_by h.maxRetries - attempt
decreasing_by
  · omega
  · omega

/-! ## `Handler.ServeHTTP` — pre-proxy pipeline -/

/-- Outcome of `ModelClient.LookupModel` as `ServeHTTP` branches on it. -/
inductive LookupOutcome where
  | found
  | notFound
  | lookupErr
  deriving Repr, DecidableEq

/-- Outcome of `ModelClient.ScaleAtLeastOneReplica`. -/
inductive ScaleOutcome where
  | scaleOk
  | scaleErr
  deriving Repr, DecidableEq

/-- Environment of one inbound request through `ServeHTTP`. -/
structure ServeEnv where
  parseOk : Bool
  lookup : LookupOutcome
  scale : ScaleOutcome
  body : String
  proxy : ProxyEnv

/-- A trace that never reached `proxyHTTP`. -/
def preProxyTrace (resp : ClientResponse) : ProxyTrace :=
  { awaitCalls := 0, addrs := [], attemptVals := [], bodies := [],
    completions := 0, response := resp }

/-- `Handler.ServeHTTP`: parse failure → 400; `LookupModel` error → 500,
not-found → 404; `ScaleAtLeastOneReplica` error → 500; then `proxyHTTP`
starting at attempt 0. -/
def serveHTTP (h : Handler) (env : ServeEnv) : ProxyTrace :=
  if env.parseOk = false then preProxyTrace (.errorEnvelope 400)
  else
    match env.lookup with
    | .lookupErr => preProxyTrace (.errorEnvelope 500)
    | .notFound => preProxyTrace (.errorEnvelope 404)
    | .found =>
      match env.scale with
      | .scaleErr => preProxyTrace (.errorEnvelope 500)
      | .scaleOk => proxyHTTP h env.proxy env.body 0 0

/-! ## `apiutils` — model/adapter delimiter convention -/

/-- Cut a character list at its first underscore: `none` when no
underscore occurs, otherwise `some (before, after)`.  This is the
`strings.SplitN(s, "_", 2)` convention on byte strings. -/
def cutUnderscore : List Char → Option (List Char × List Char)
  | [] => none
  | c :: cs =>
    if c = '_' then some ([], cs)
    else
      match cutUnderscore cs with
      | none => none
      | some (beforeCs, afterCs) => some (c :: beforeCs, afterCs)

/-- Modelled from the spec: `apiutils.SplitModelAdapter` is not part of
this tree (only its callers and tests are).  The spec's delimiter
convention is that a requested model has the form `"<model>"` or
`"<model>_<adapter>"`, so the split cuts the string at its first
underscore; a string without an underscore is a bare model name with an
empty adapter. -/
def SplitModelAdapter (requestedModel : String) : String × String :=
  match cutUnderscore requestedModel.data with
  | none => (requestedModel, "")
  | some (m, a) => (String.mk m, String.mk a)

/-- Modelled from the spec: `apiutils.MergeModelAdapter` is the inverse
direction of the delimiter convention; an empty adapter merges to the
bare model name, otherwise model and adapter are joined with an
underscore. -/
def MergeModelAdapter (model adapter : String) : String :=
  if adapter = "" then model else model ++ "_" ++ adapter

/-! ## `loadbalancer` endpoint group

Modelled from the spec: the endpoint-group implementation itself is not
under this tree — only its tests (`TestBlockAndWaitForEndpoints`,
`TestAbortOnCtxCancel`, `TestConcurrentAccess`) are.  The spec describes a
per-model endpoint set whose `getBestAddr` blocks while the set is empty,
with broadcast wake on every `reconcileEndpoints` and prompt context
cancellation.  We model the group as a state (endpoint addresses plus the
identities of currently blocked callers) with an atomic step relation:
each event is one lock-protected operation, and the outputs of a step are
the callers that return during it. -/

/-- Modelled from the spec: the state of one endpoint group — the
installed endpoint addresses and the blocked `getBestAddr` callers
(waiters), identified by caller ids. -/
structure GroupState where
  endpoints : List String
  waiters : List Nat
  deriving Repr, DecidableEq

/-- Modelled from the spec: `newEndpointGroup` starts empty, with no
waiters. -/
def newEndpointGroup : GroupState := { endpoints := [], waiters := [] }

/-- An event against the group: a `getBestAddr` call by caller `id`, a
`reconcileEndpoints` installing a snapshot of addresses, or the
cancellation of caller `id`'s context while it waits. -/
inductive GroupEvent where
  | getBestAddr (id : Nat)
  | reconcile (snapshot : List String)
  | cancel (id : Nat)
  deriving Repr, DecidableEq

/-- A caller returning during a step: with an address of a registered
endpoint, or with a cancellation error. -/
inductive GroupReturn where
  | returned (id : Nat) (addr : String)
  | cancelled (id : Nat)
  deriving Repr, DecidableEq

/-- Modelled from the spec: one atomic step of the group.  A
`getBestAddr` on a non-empty group returns an endpoint address at once
(selection policy left open by the spec; the model picks the first); on an
empty group the caller blocks, joining the waiters.  A `reconcileEndpoints`
replaces the endpoint set and broadcasts: with a non-empty snapshot every
waiter present wakes, re-checks, and returns an address of the new
snapshot; with an empty snapshot the waiters stay blocked.  A `cancel` of
a blocked caller makes that caller return a cancellation error. -/
def groupStep (s : GroupState) (e : GroupEvent) : GroupState × List GroupReturn :=
  match e with
  | .getBestAddr i =>
    match s.endpoints with
    | [] => ({ s with waiters := s.waiters ++ [i] }, [])
    | a :: _ => (s, [.returned i a])
  | .reconcile snapshot =>
    match snapshot with
    | [] => ({ endpoints := [], waiters := s.waiters }, [])
    | a :: rest =>
      ({ endpoints := a :: rest, waiters := [] },
        s.waiters.map (fun i => .returned i a))
  | .cancel i =>
    if i ∈ s.waiters then
      ({ s with waiters := s.waiters.filter (fun j => j ≠ i) }, [.cancelled i])
    else (s, [])

/-! ## `messenger` — JSON values and request parsing -/

/-- A JSON value; `obj` carries its fields as an association list (Go
decodes into `map[string]interface{}`, so duplicate keys have collapsed
and ordering is abstracted away). -/
inductive JValue where
  | str (s : String)
  | num (n : Int)
  | bool (b : Bool)
  | null
  | arr (elems : List JValue)
  | obj (fields : List (String × JValue))

/-- Go `payloadBody["model"] = adapter` on the decoded map: replace the
value at the first matching key, or append the binding if absent. -/
def setField : List (String × JValue) → String → JValue → List (String × JValue)
  | [], k, v => [(k, v)]
  | (k', v') :: rest, k, v =>
    if k' = k then (k, v) :: rest else (k', v') :: setField rest k v

/-- The result of unmarshalling the pub/sub message envelope into the
anonymous `payload` struct of `parseRequest`: `Metadata` (absent → empty),
`Path` (absent → `""`) and the raw `Body`.  `body = none` models a `Body`
that is absent or not valid JSON (both make the inner
`json.Unmarshal(payload.Body, &payloadBody)` fail). -/
structure MsgPayload where
  metadata : List (String × JValue)
  path : String
  body : Option JValue

/-- A pub/sub message as `parseRequest` sees it: `payload = none` models a
message body that does not unmarshal as the envelope JSON. -/
structure PubSubMsg where
  payload : Option MsgPayload

/-- Go `strings.HasPrefix(path, "/")`: whether the first character is a
slash. -/
def hasLeadingSlash (s : String) : Bool :=
  match s.data with
  | [] => false
  | c :: _ => c = '/'

/-- The error cases of `parseRequest`, in source order. -/
inductive ParseErr where
  | unmarshalEnvelope
  | decodingBody
  | missingModel
  | modelNotString
  deriving Repr, DecidableEq

/-- The `request` struct populated by `parseRequest` (the `ctx` and `msg`
fields are carried by the harness around it; `body` is the possibly
rewritten raw body). -/
structure Request where
  metadata : List (String × JValue)
  path : String
  body : Option JValue
  requestedModel : String
  model : String
  adapter : String

/-- `messenger.parseRequest`.  The pair mirrors Go's `(*request, error)`:
the envelope-unmarshal failure returns the partially initialised non-nil
request together with the error, while every later failure returns a nil
request (`none`).  On success the path defaults to `"/v1/completions"`
when empty and gains a leading `"/"` when it lacks one; the `model` string
is extracted from the decoded body, split into model/adapter, and exactly
when the adapter is non-empty the body's `model` field is rewritten to the
adapter and the body re-marshalled. -/
def parseRequest (msg : PubSubMsg) : Option Request × Option ParseErr :=
  match msg.payload with
  | none =>
    (some { metadata := [], path := "", body := none,
            requestedModel := "", model := "", adapter := "" },
      some .unmarshalEnvelope)
  | some payload =>
    let path :=
      if payload.path = "" then "/v1/completions"
      else if hasLeadingSlash payload.path then payload.path
      else "/" ++ payload.path
    match payload.body with
    | none => (none, some .decodingBody)
    | some bodyJson =>
      match bodyJson with
      | .obj fields =>
        match fields.lookup "model" with
        | none => (none, some .missingModel)
        | some (.str modelStr) =>
          let split := SplitModelAdapter modelStr
          if split.2 = "" then
            (some { metadata := payload.metadata, path := path,
                    body := some bodyJson, requestedModel := modelStr,
                    model := split.1, adapter := split.2 }, none)
          else
            (some { metadata := payload.metadata, path := path,
                    body := some (.obj (setField fields "model" (.str split.2))),
                    requestedModel := modelStr,
                    model := split.1, adapter := split.2 }, none)
        | some _ => (none, some .modelNotString)
      | _ => (none, some .decodingBody)

/-! ## `messenger` — response publishing and the consecutive-error counter -/

/-- The body handed to `Messenger.sendResponse`: either the OpenAI-style
`{"error":{"message":...}}` envelope produced by `Messenger.jsonError`, or
the verbatim backend response payload.  A backend payload is the raw bytes
`io.ReadAll` returned, placed into a `json.RawMessage`, so it carries
whether those bytes are valid JSON (the envelope, built with `%q`
quoting, always is). -/
inductive RespBody where
  | envelope (message : String)
  | backendPayload (payload : String) (validJson : Bool)
  deriving Repr, DecidableEq

/-- Whether `json.Marshal` of the response struct embedding this body
succeeds: an envelope always marshals; a raw backend payload marshals
exactly when its bytes are valid JSON (marshalling a `json.RawMessage`
re-validates the bytes, so an empty or non-JSON backend body fails). -/
def RespBody.marshals : RespBody → Bool
  | .envelope _ => true
  | .backendPayload _ validJson => validJson

/-- `Messenger.jsonError`: increments the consecutive-error counter and
renders the OpenAI-style error envelope. -/
def jsonError (consecutiveErrors : Nat) (message : String) : Nat × RespBody :=
  (consecutiveErrors + 1, .envelope message)

/-- The pub/sub message `Send` delivered to the response topic: the
marshalled response envelope carrying the status code and body, or — after
a `json.Marshal` failure, which the code only logs — a message whose
`Body` is nil. -/
inductive SentMessage where
  | response (statusCode : Nat) (body : RespBody)
  | nilBody
  deriving Repr, DecidableEq

/-- Observable effects of one `Messenger.sendResponse` call. -/
structure SendEffects where
  consecutiveErrors : Nat
  acked : Bool
  nacked : Bool
  published : Option SentMessage
  deriving Repr, DecidableEq

/-- `Messenger.sendResponse` on consecutive-error counter `n`: a
`json.Marshal` failure of the response (a backend payload whose bytes are
not valid JSON) increments the counter, and execution continues into
`Send` with a nil message body; a publish failure increments the counter
again, Nacks when the message is Nackable, and returns without Acking; a
successful publish resets the counter when `statusCode < 300` (otherwise
leaves whatever the marshal step made of it) and Acks. -/
def sendResponse (n : Nat) (publishOk nackable : Bool) (body : RespBody)
    (statusCode : Nat) : SendEffects :=
  let n1 := if RespBody.marshals body then n else n + 1
  let sent :=
    if RespBody.marshals body then SentMessage.response statusCode body
    else SentMessage.nilBody
  if publishOk = false then
    { consecutiveErrors := n1 + 1, acked := false, nacked := nackable,
      published := none }
  else
    { consecutiveErrors := if statusCode < 300 then 0 else n1,
      acked := true, nacked := false,
      published := some sent }

/-- A backend reply as `sendBackendRequest` returns it: the raw bytes read
from the response body, whether those bytes are valid JSON, and the
status code. -/
structure BackendReply where
  payload : String
  validJson : Bool
  status : Nat
  deriving Repr, DecidableEq

/-- Environment of one `Messenger.handleRequest` call: the resolver
outcome, whether `AwaitBestAddress` succeeded, the backend result
(`none` = transport/read error, `some reply` = a response), and the
publish/nack capabilities of the transport. -/
structure HandleEnv where
  lookup : LookupOutcome
  awaitOk : Bool
  backendResult : Option BackendReply
  publishOk : Bool
  nackable : Bool

/-- `Messenger.handleRequest` on consecutive-error counter `n`, returning
the `sendResponse` effects, or `none` when the Go code dereferences the
nil `*request` returned by `parseRequest` (`sendResponse` reads `req.msg`
unconditionally, so a nil request is a panic and no response is sent).
Error paths publish `jsonError` envelopes: parse error → 400, lookup
error → 500, model not found → 404, await or backend error → 502; a
backend response is published verbatim with its status code
(`ScaleAtLeastOneReplica` errors are ignored). -/
def handleRequest (n : Nat) (msg : PubSubMsg) (env : HandleEnv) :
    Option SendEffects :=
  match parseRequest msg with
  | (none, some _) => none
  | (none, none) => none
  | (some _, some _) =>
    let e := jsonError n "error parsing request"
    some (sendResponse e.1 env.publishOk env.nackable e.2 400)
  | (some _, none) =>
    match env.lookup with
    | .lookupErr =>
      let e := jsonError n "error checking if model exists"
      some (sendResponse e.1 env.publishOk env.nackable e.2 500)
    | .notFound =>
      let e := jsonError n "model not found"
      some (sendResponse e.1 env.publishOk env.nackable e.2 404)
    | .found =>
      if env.awaitOk = false then
        let e := jsonError n "error awaiting host for backend"
        some (sendResponse e.1 env.publishOk env.nackable e.2 502)
      else
        match env.backendResult with
        | none =>
          let e := jsonError n "error sending request to backend"
          some (sendResponse e.1 env.publishOk env.nackable e.2 502)
        | some reply =>
          some (sendResponse n env.publishOk env.nackable
            (.backendPayload reply.payload reply.validJson) reply.status)

/-! ## `messenger` — receive loop with subscription restart -/

/-- One iteration's `Receive` outcome: a message (with the value the
consecutive-error counter holds when the loop reads it after dispatch), a
`context.Canceled` error, or any other receive error. -/
inductive RecvOutcome where
  | ok (nErrAfter : Nat)
  | errCanceled
  | err
  deriving Repr, DecidableEq

/-- How a modelled receive-loop run ended. -/
inductive LoopExit where
  | canceledErr
  | gaveUp
  | openSubErr
  | outcomesExhausted
  deriving Repr, DecidableEq

/-- The messenger configuration the loop consults: `ErrorMaxBackoff` (a
`time.Duration`, in nanoseconds) and whether the k-th
`pubsub.OpenSubscription` during restart succeeds. -/
structure MessengerCfg where
  errorMaxBackoff : Int
  openSubOk : Nat → Bool

/-- `maxRestartAttempts` in `Messenger.Start`. -/
def maxRestartAttempts : Nat := 20

/-- `maxRestartBackoff` in `Messenger.Start`, in seconds. -/
def maxRestartBackoffSec : Nat := 10

/-- `messenger.consecutiveErrBackoff`: `n` seconds, capped at `max`
(arguments in nanoseconds, as `time.Duration`). -/
def consecutiveErrBackoff (n maxB : Int) : Int :=
  let d := n * 1000000000
  if d > maxB then maxB else d

/-- Observable trace of a receive-loop run: the seconds slept before each
subscription recreation, how many recreations happened, the
consecutive-error sleep taken after each dispatched message (`none` = no
sleep, otherwise nanoseconds), and how the run ended. -/
structure RecvTrace where
  restartWaits : List Nat
  restarts : Nat
  msgSleeps : List (Option Int)
  exit : LoopExit
  deriving Repr, DecidableEq

/-- The receive loop of `Messenger.Start`, restricted to the sequential
skeleton the claims are about.  `restartAttempt` is the restart counter:
a `context.Canceled` receive error returns it; any other receive error
gives up once the counter exceeds `maxRestartAttempts`, and otherwise
sleeps `min(restartAttempt seconds, 10s)`, recreates the subscription
(failing the run if `OpenSubscription` fails) and increments the counter;
a successful receive resets the counter to zero, dispatches the handler,
and then sleeps `consecutiveErrBackoff` iff the consecutive-error counter
is positive. -/
def recvLoop (cfg : MessengerCfg) (restartAttempt : Nat) :
    List RecvOutcome → RecvTrace
  | [] =>
    { restartWaits := [], restarts := 0, msgSleeps := [],
      exit := .outcomesExhausted }
  | .errCanceled :: _ =>
    { restartWaits := [], restarts := 0, msgSleeps := [],
      exit := .canceledErr }
  | .err :: rest =>
    if restartAttempt > maxRestartAttempts then
      { restartWaits := [], restarts := 0, msgSleeps := [], exit := .gaveUp }
    else
      let wait := min restartAttempt maxRestartBackoffSec
      if cfg.openSubOk restartAttempt then
        let t := recvLoop cfg (restartAttempt + 1) rest
        { restartWaits := wait :: t.restartWaits, restarts := t.restarts + 1,
          msgSleeps := t.msgSleeps, exit := t.exit }
      else
        { restartWaits := [wait], restarts := 0, msgSleeps := [],
          exit := .openSubErr }
  | .ok nErrAfter :: rest =>
    let sleep :=
      if nErrAfter > 0 then
        some (consecutiveErrBackoff nErrAfter cfg.errorMaxBackoff)
      else none
    let t := recvLoop cfg 0 rest
    { restartWaits := t.restartWaits, restarts := t.restarts,
      msgSleeps := sleep :: t.msgSleeps, exit := t.exit }

/-! ## Concrete inputs used to instantiate the theorems -/

/-- A handler with the default retry configuration of the tests:
`maxRetries = 3`, `retryCodes = nil`. -/
def defaultHandler : Handler := { maxRetries := 3, retryCodes := none }

/-- A load-balancer oracle that hands out a different address on the
second `AwaitBestAddress` call, with a retryable 500 on the first backend
attempt and a 200 on the second. -/
def reselectEnv : ProxyEnv :=
  { await := fun i => .ok (if i = 0 then "10.0.0.1:8000" else "10.0.0.2:8000"),
    backend := fun a => if a = 0 then .response 500 else .response 200,
    ctxOk := fun _ => true }

/-- A proxy environment whose backend always answers 200. -/
def okProxyEnv : ProxyEnv :=
  { await := fun _ => .ok "10.0.0.1:8000",
    backend := fun _ => .response 200,
    ctxOk := fun _ => true }

/-- A proxy environment whose every backend attempt is a transport error
(connection dropped, no response), with a live context throughout. -/
def transportFailEnv : ProxyEnv :=
  { await := fun _ => .ok "10.0.0.1:8000",
    backend := fun _ => .transportError,
    ctxOk := fun _ => true }

/-- A JSON request body naming model `m1`. -/
def m1Body : String := "\x7b\"model\":\"m1\"\x7d"

/-- A proxy environment whose host wait fails with `context.Canceled`. -/
def cancelProxyEnv : ProxyEnv :=
  { await := fun _ => .errCanceled,
    backend := fun _ => .response 200,
    ctxOk := fun _ => true }

/-- A serve environment whose host wait is cancelled. -/
def cancelServe : ServeEnv :=
  { parseOk := true, lookup := .found, scale := .scaleOk,
    body := m1Body, proxy := cancelProxyEnv }

/-- A serve environment for a request whose model fails to parse. -/
def parseFailServe : ServeEnv :=
  { parseOk := false, lookup := .found, scale := .scaleOk,
    body := "\x7b\x7d", proxy := okProxyEnv }

/-- A serve environment for an unknown model. -/
def notFoundServe : ServeEnv :=
  { parseOk := true, lookup := .notFound, scale := .scaleOk,
    body := "\x7b\"model\":\"does-not-exist\"\x7d", proxy := okProxyEnv }

/-- A serve environment whose backend always drops the connection. -/
def transportFailServe : ServeEnv :=
  { parseOk := true, lookup := .found, scale := .scaleOk,
    body := m1Body, proxy := transportFailEnv }

/-- A messenger configuration whose subscription recreation always
succeeds, with `ErrorMaxBackoff` of 10 seconds. -/
def plainCfg : MessengerCfg :=
  { errorMaxBackoff := 10000000000, openSubOk := fun _ => true }

/-- A well-formed pub/sub message carrying a bare model name. -/
def okMsg : PubSubMsg :=
  { payload :=
      some { metadata := [], path := "", body := some (.obj [("model", .str "m1")]) } }

/-- The request parsed from `okMsg`. -/
def okReq : Request :=
  { metadata := [], path := "/v1/completions",
    body := some (.obj [("model", .str "m1")]),
    requestedModel := "m1", model := "m1", adapter := "" }

/-- The decoded body fields of `adapterMsg`. -/
def adapterFields : List (String × JValue) :=
  [("model", .str "m3_a3"), ("prompt", .str "hi")]

/-- The parsed envelope of `adapterMsg`: a model+adapter identifier, an
extra body field, and a path lacking its leading slash. -/
def adapterPayload : MsgPayload :=
  { metadata := [("id", .num 1)], path := "v1/chat",
    body := some (.obj adapterFields) }

/-- A well-formed pub/sub message with a model+adapter identifier. -/
def adapterMsg : PubSubMsg := { payload := some adapterPayload }

/-- A message whose envelope parses but whose `body` is valid JSON that is
not an object, so the inner decode into a map fails. -/
def badBodyMsg : PubSubMsg :=
  { payload := some { metadata := [], path := "", body := some (.num 5) } }

/-- A message whose body does not unmarshal as the envelope JSON at all. -/
def badEnvelopeMsg : PubSubMsg := { payload := none }

/-- A benign handler environment: model found, address available, backend
answers 200 with a valid-JSON body, publish succeeds, message Nackable. -/
def benignEnv : HandleEnv :=
  { lookup := .found, awaitOk := true,
    backendResult := some { payload := "\"ok\"", validJson := true, status := 200 },
    publishOk := true, nackable := true }

/-- A handler environment for an unknown model, publish succeeding. -/
def notFoundEnv : HandleEnv :=
  { lookup := .notFound, awaitOk := true, backendResult := none,
    publishOk := true, nackable := true }

/-- A handler environment whose backend answers a 500 with a valid-JSON
error payload, publish succeeding. -/
def backend500Env : HandleEnv :=
  { lookup := .found, awaitOk := true,
    backendResult :=
      some { payload := "\x7b\"err\":\"oh no!\"\x7d", validJson := true,
             status := 500 },
    publishOk := true, nackable := true }

/-- A group with two callers blocked on an empty endpoint set. -/
def waitingGroup : GroupState := { endpoints := [], waiters := [7, 8] }

/-! ## Invariants of the retry recursion -/

theorem proxyHTTP_backendAttempts_le (h : Handler) (env : ProxyEnv)
    (body : String) (callIdx attempt : Nat) :
    (proxyHTTP h env body callIdx attempt).backendAttempts ≤
      (h.maxRetries - attempt) + 1 := by
  induction callIdx, attempt using proxyHTTP.induct h env body with
  | case1 c a he =>
    rw [proxyHTTP]; simp [he, awaitFailTrace, ProxyTrace.backendAttempts]
  | case2 c a he =>
    rw [proxyHTTP]; simp [he, awaitFailTrace, ProxyTrace.backendAttempts]
  | case3 c a he =>
    rw [proxyHTTP]; simp [he, awaitFailTrace, ProxyTrace.backendAttempts]
  | case4 c a addr he st hb hr hc ih =>
    rw [proxyHTTP]
    simp only [he, hb, dif_pos hr, dif_pos hc, retryTrace,
      ProxyTrace.backendAttempts, List.length_cons] at *
    omega
  | case5 c a addr he st hb hr hc =>
    have hcf : env.ctxOk a = false := by
      cases hx : env.ctxOk a
      · rfl
      · exact absurd ⟨hx, hr.2⟩ hc
    rw [proxyHTTP]
    simp [he, hb, hr, hcf, finalAttemptTrace, ProxyTrace.backendAttempts]
  | case6 c a addr he st hb hr =>
    rw [proxyHTTP]
    simp [he, hb, hr, finalAttemptTrace, ProxyTrace.backendAttempts]
  | case7 c a addr he hb hc ih =>
    rw [proxyHTTP]
    simp only [he, hb, dif_pos hc, retryTrace,
      ProxyTrace.backendAttempts, List.length_cons] at *
    omega
  | case8 c a addr he hb hc =>
    rw [proxyHTTP]
    simp only [he, hb, dif_neg hc, finalAttemptTrace,
      ProxyTrace.backendAttempts, List.length_cons, List.length_nil]
    omega

theorem proxyHTTP_attemptVals_le (h : Handler) (env : ProxyEnv)
    (body : String) (callIdx attempt : Nat) (hle : attempt ≤ h.maxRetries) :
    ∀ x ∈ (proxyHTTP h env body callIdx attempt).attemptVals,
      x ≤ h.maxRetries := by
  induction callIdx, attempt using proxyHTTP.induct h env body with
  | case1 c a he => rw [proxyHTTP]; simp [he, awaitFailTrace]
  | case2 c a he => rw [proxyHTTP]; simp [he, awaitFailTrace]
  | case3 c a he => rw [proxyHTTP]; simp [he, awaitFailTrace]
  | case4 c a addr he st hb hr hc ih =>
    rw [proxyHTTP]
    simp only [he, hb, dif_pos hr, dif_pos hc, retryTrace, List.mem_cons]
    rintro x (rfl | hx)
    · exact hle
    · exact ih (by omega) x hx
  | case5 c a addr he st hb hr hc =>
    have hcf : env.ctxOk a = false := by
      cases hx : env.ctxOk a
      · rfl
      · exact absurd ⟨hx, hr.2⟩ hc
    rw [proxyHTTP]
    simp [he, hb, hr, hcf, finalAttemptTrace, hle]
  | case6 c a addr he st hb hr =>
    rw [proxyHTTP]
    simp [he, hb, hr, finalAttemptTrace, hle]
  | case7 c a addr he hb hc ih =>
    rw [proxyHTTP]
    simp only [he, hb, dif_pos hc, retryTrace, List.mem_cons]
    rintro x (rfl | hx)
    · exact hle
    · exact ih (by omega) x hx
  | case8 c a addr he hb hc =>
    rw [proxyHTTP]
    simp only [he, hb, dif_neg hc, finalAttemptTrace, List.mem_cons,
      List.not_mem_nil, or_false]
    rintro x rfl
    exact hle

theorem proxyHTTP_trace_shape (h : Handler) (env : ProxyEnv)
    (body : String) (callIdx attempt : Nat) :
    (proxyHTTP h env body callIdx attempt).completions =
      (proxyHTTP h env body callIdx attempt).backendAttempts ∧
    (proxyHTTP h env body callIdx attempt).addrs.length =
      (proxyHTTP h env body callIdx attempt).backendAttempts ∧
    (proxyHTTP h env body callIdx attempt).bodies =
      List.replicate (proxyHTTP h env body callIdx attempt).backendAttempts body ∧
    (proxyHTTP h env body callIdx attempt).attemptVals =
      List.range' attempt (proxyHTTP h env body callIdx attempt).backendAttempts ∧
    ((proxyHTTP h env body callIdx attempt).awaitCalls =
        (proxyHTTP h env body callIdx attempt).backendAttempts ∨
      (proxyHTTP h env body callIdx attempt).awaitCalls =
        (proxyHTTP h env body callIdx attempt).backendAttempts + 1) := by
  induction callIdx, attempt using proxyHTTP.induct h env body with
  | case1 c a he =>
    rw [proxyHTTP]; simp [he, awaitFailTrace, ProxyTrace.backendAttempts]
  | case2 c a he =>
    rw [proxyHTTP]; simp [he, awaitFailTrace, ProxyTrace.backendAttempts]
  | case3 c a he =>
    rw [proxyHTTP]; simp [he, awaitFailTrace, ProxyTrace.backendAttempts]
  | case4 c a addr he st hb hr hc ih =>
    rw [proxyHTTP]
    obtain ⟨ih1, ih2, ih3, ih4, ih5⟩ := ih
    simp only [he, hb, dif_pos hr, dif_pos hc, retryTrace,
      ProxyTrace.backendAttempts, List.length_cons] at *
    refine ⟨by omega, by omega, ?_, ?_, by omega⟩
    · conv_lhs => rw [ih3]
      simp [List.replicate_succ]
    · conv_lhs => rw [ih4]
      simp [List.range'_succ]
  | case5 c a addr he st hb hr hc =>
    have hcf : env.ctxOk a = false := by
      cases hx : env.ctxOk a
      · rfl
      · exact absurd ⟨hx, hr.2⟩ hc
    rw [proxyHTTP]
    simp [he, hb, hr, hcf, finalAttemptTrace, ProxyTrace.backendAttempts,
      List.replicate, List.range']
  | case6 c a addr he st hb hr =>
    rw [proxyHTTP]
    simp [he, hb, hr, finalAttemptTrace, ProxyTrace.backendAttempts,
      List.replicate, List.range']
  | case7 c a addr he hb hc ih =>
    rw [proxyHTTP]
    obtain ⟨ih1, ih2, ih3, ih4, ih5⟩ := ih
    simp only [he, hb, dif_pos hc, retryTrace,
      ProxyTrace.backendAttempts, List.length_cons] at *
    refine ⟨by omega, by omega, ?_, ?_, by omega⟩
    · conv_lhs => rw [ih3]
      simp [List.replicate_succ]
    · conv_lhs => rw [ih4]
      simp [List.range'_succ]
  | case8 c a addr he hb hc =>
    rw [proxyHTTP]
    simp [he, hb, hc, finalAttemptTrace, ProxyTrace.backendAttempts,
      List.replicate, List.range']

theorem proxyHTTP_transport_502 (h : Handler) (env : ProxyEnv)
    (body : String) (callIdx attempt : Nat)
    (hAwait : ∀ i, ∃ addr, env.await i = .ok addr)
    (hBack : ∀ a, env.backend a = .transportError)
    (_hCtx : ∀ a, env.ctxOk a = true) :
    (proxyHTTP h env body callIdx attempt).response = .errorEnvelope 502 := by
  induction callIdx, attempt using proxyHTTP.induct h env body with
  | case1 c a he => obtain ⟨ad, hok⟩ := hAwait c; rw [hok] at he; cases he
  | case2 c a he => obtain ⟨ad, hok⟩ := hAwait c; rw [hok] at he; cases he
  | case3 c a he => obtain ⟨ad, hok⟩ := hAwait c; rw [hok] at he; cases he
  | case4 c a addr he st hb hr hc ih => rw [hBack a] at hb; cases hb
  | case5 c a addr he st hb hr hc => rw [hBack a] at hb; cases hb
  | case6 c a addr he st hb hr => rw [hBack a] at hb; cases hb
  | case7 c a addr he hb hc ih =>
    rw [proxyHTTP]
    simp only [he, hb, dif_pos hc, retryTrace]
    exact ih
  | case8 c a addr he hb hc =>
    rw [proxyHTTP]
    simp [he, hb, hc, finalAttemptTrace]

/-! ## Claim theorems -/

/-- C1 (counterexample). With the default handler (`maxRetries = 3`,
retryable codes `{500, 502, 503, 504}`), a first backend attempt answering
a retryable 500 followed by a 200, and a load balancer whose second
`AwaitBestAddress` call returns a different address, the executed trace
makes two `AwaitBestAddress` calls, forwards the two attempts to two
different addresses, and invokes two completion callbacks — refuting
"same backend address . no re-selection of an address . the single
completion callback obtained before the first attempt is held across all
attempts and invoked exactly once after the final attempt". -/
theorem retry_reselects_address_cex :
    (proxyHTTP defaultHandler reselectEnv m1Body 0 0).awaitCalls = 2 ∧
    (proxyHTTP defaultHandler reselectEnv m1Body 0 0).addrs =
      ["10.0.0.1:8000", "10.0.0.2:8000"] ∧
    (proxyHTTP defaultHandler reselectEnv m1Body 0 0).completions = 2 ∧
    defaultHandler.isRetryCode 500 = true ∧
    (proxyHTTP defaultHandler reselectEnv m1Body 0 0).response =
      .passthrough 200 := by
  refine ⟨?_, ?_, ?_, ?_, ?_⟩ <;>
    simp [proxyHTTP, defaultHandler, reselectEnv, Handler.isRetryCode,
      defaultRetryCodes, retryTrace, finalAttemptTrace, awaitFailTrace]

/-- C1 (amended). On a retryable status or transport error (context alive,
`attempt < maxRetries`) the handler retries by re-running the whole proxy
step: address selection is re-run for every attempt (one `AwaitBestAddress`
call per backend attempt, plus at most one failed call), each attempt
acquires and invokes its own completion callback exactly once, the same
cached request body is forwarded on every attempt, and the attempt counter
increases by exactly one per backend attempt. -/
theorem proxyHTTP_retry_accounting (h : Handler) (env : ProxyEnv)
    (body : String) (callIdx attempt : Nat) :
    (proxyHTTP h env body callIdx attempt).completions =
      (proxyHTTP h env body callIdx attempt).backendAttempts ∧
    (proxyHTTP h env body callIdx attempt).addrs.length =
      (proxyHTTP h env body callIdx attempt).backendAttempts ∧
    (proxyHTTP h env body callIdx attempt).bodies =
      List.replicate (proxyHTTP h env body callIdx attempt).backendAttempts body ∧
    (proxyHTTP h env body callIdx attempt).attemptVals =
      List.range' attempt (proxyHTTP h env body callIdx attempt).backendAttempts ∧
    ((proxyHTTP h env body callIdx attempt).awaitCalls =
        (proxyHTTP h env body callIdx attempt).backendAttempts ∨
      (proxyHTTP h env body callIdx attempt).awaitCalls =
        (proxyHTTP h env body callIdx attempt).backendAttempts + 1) :=
  proxyHTTP_trace_shape h env body callIdx attempt

/-- C2. For every inbound request, the attempt counter only takes values
in `[0, maxRetries]`, increases by exactly one per backend attempt
(consecutive values starting at 0), and at most `maxRetries + 1` backend
requests are sent. -/
theorem serveHTTP_attempt_bounds (h : Handler) (env : ServeEnv) :
    ((serveHTTP h env).attemptVals.all (fun x => x ≤ h.maxRetries)) = true ∧
    (serveHTTP h env).attemptVals =
      List.range' 0 (serveHTTP h env).backendAttempts ∧
    (serveHTTP h env).backendAttempts ≤ h.maxRetries + 1 := by
  have key : ∀ t : ProxyTrace,
      (∀ x ∈ t.attemptVals, x ≤ h.maxRetries) →
      t.attemptVals = List.range' 0 t.backendAttempts →
      t.backendAttempts ≤ h.maxRetries + 1 →
      (t.attemptVals.all (fun x => x ≤ h.maxRetries)) = true ∧
      t.attemptVals = List.range' 0 t.backendAttempts ∧
      t.backendAttempts ≤ h.maxRetries + 1 := by
    intro t h1 h2 h3
    exact ⟨by simpa [List.all_eq_true] using h1, h2, h3⟩
  unfold serveHTTP
  split
  · exact key _ (by simp [preProxyTrace]) (by simp [preProxyTrace, ProxyTrace.backendAttempts, List.range']) (by simp [preProxyTrace, ProxyTrace.backendAttempts])
  · split
    · exact key _ (by simp [preProxyTrace]) (by simp [preProxyTrace, ProxyTrace.backendAttempts, List.range']) (by simp [preProxyTrace, ProxyTrace.backendAttempts])
    · exact key _ (by simp [preProxyTrace]) (by simp [preProxyTrace, ProxyTrace.backendAttempts, List.range']) (by simp [preProxyTrace, ProxyTrace.backendAttempts])
    · split
      · exact key _ (by simp [preProxyTrace]) (by simp [preProxyTrace, ProxyTrace.backendAttempts, List.range']) (by simp [preProxyTrace, ProxyTrace.backendAttempts])
      · refine key _ (proxyHTTP_attemptVals_le h env.proxy env.body 0 0 (Nat.zero_le _)) ((proxyHTTP_trace_shape h env.proxy env.body 0 0).2.2.2.1) ?_
        have := proxyHTTP_backendAttempts_le h env.proxy env.body 0 0
        omega

/-- C3. The handler's status mapping: 400 when model parsing fails; 500 on
a `LookupModel` error; 404 when the model/adapter is unknown; 500 on a
`ScaleAtLeastOneReplica` error; on a host-wait failure 500 for
`context.Canceled`, 504 for a deadline, and 504 for any other error; and a
502 JSON error envelope when every attempt is a pure transport failure
with a live context (retries exhausted). -/
theorem serveHTTP_status_mapping (h : Handler) (env : ServeEnv) :
    (env.parseOk = false → (serveHTTP h env).response = .errorEnvelope 400) ∧
    (env.parseOk = true → env.lookup = .lookupErr →
      (serveHTTP h env).response = .errorEnvelope 500) ∧
    (env.parseOk = true → env.lookup = .notFound →
      (serveHTTP h env).response = .errorEnvelope 404) ∧
    (env.parseOk = true → env.lookup = .found → env.scale = .scaleErr →
      (serveHTTP h env).response = .errorEnvelope 500) ∧
    (env.parseOk = true → env.lookup = .found → env.scale = .scaleOk →
      ((env.proxy.await 0 = .errCanceled →
          (serveHTTP h env).response = .errorEnvelope 500) ∧
       (env.proxy.await 0 = .errDeadline →
          (serveHTTP h env).response = .errorEnvelope 504) ∧
       (env.proxy.await 0 = .errOther →
          (serveHTTP h env).response = .errorEnvelope 504))) ∧
    (env.parseOk = true → env.lookup = .found → env.scale = .scaleOk →
      (∀ i, ∃ addr, env.proxy.await i = .ok addr) →
      (∀ a, env.proxy.backend a = .transportError) →
      (∀ a, env.proxy.ctxOk a = true) →
      (serveHTTP h env).response = .errorEnvelope 502) := by
  refine ⟨?_, ?_, ?_, ?_, ?_, ?_⟩
  · intro hp; simp [serveHTTP, hp, preProxyTrace]
  · intro hp hl; simp [serveHTTP, hp, hl, preProxyTrace]
  · intro hp hl; simp [serveHTTP, hp, hl, preProxyTrace]
  · intro hp hl hs; simp [serveHTTP, hp, hl, hs, preProxyTrace]
  · intro hp hl hs
    refine ⟨?_, ?_, ?_⟩ <;> intro ha <;>
      (simp only [serveHTTP, hp, hl, hs, Bool.true_eq_false, if_false];
       rw [proxyHTTP]; simp [ha, awaitFailTrace])
  · intro hp hl hs hAwait hBack hCtx
    simp only [serveHTTP, hp, hl, hs, Bool.true_eq_false, if_false]
    exact proxyHTTP_transport_502 h env.proxy env.body 0 0 hAwait hBack hCtx

/-- C3 (witness): the mapping evaluated on concrete environments — parse
failure → 400, unknown model → 404, cancelled host wait → 500, exhausted
transport failures → 502. -/
theorem serveHTTP_status_mapping_witness :
    (serveHTTP defaultHandler parseFailServe).response = .errorEnvelope 400 ∧
    (serveHTTP defaultHandler notFoundServe).response = .errorEnvelope 404 ∧
    (serveHTTP defaultHandler cancelServe).response = .errorEnvelope 500 ∧
    (serveHTTP defaultHandler transportFailServe).response = .errorEnvelope 502 :=
  ⟨(serveHTTP_status_mapping defaultHandler parseFailServe).1 rfl,
   (serveHTTP_status_mapping defaultHandler notFoundServe).2.2.1 rfl rfl,
   ((serveHTTP_status_mapping defaultHandler cancelServe).2.2.2.2.1 rfl rfl rfl).1 rfl,
   (serveHTTP_status_mapping defaultHandler transportFailServe).2.2.2.2.2 rfl rfl rfl
     (fun _ => ⟨"10.0.0.1:8000", rfl⟩) (fun _ => rfl) (fun _ => rfl)⟩

/-- C4. On an empty endpoint set a `getBestAddr` caller blocks (it
produces no return and joins the waiters); a reconciliation installing a
non-empty snapshot wakes every waiter present at call time, each of which
returns an address of the installed snapshot, and leaves no waiter
blocked; a reconciliation with an empty snapshot wakes returns nobody and
leaves the waiters blocked; and cancelling a blocked caller's context
makes exactly that caller return with a cancellation error. -/
theorem endpointGroup_block_broadcast :
    (∀ (s : GroupState) (i : Nat), s.endpoints = [] →
      groupStep s (.getBestAddr i) =
        ({ endpoints := s.endpoints, waiters := s.waiters ++ [i] }, [])) ∧
    (∀ (s : GroupState) (a : String) (rest : List String),
      ∀ i ∈ s.waiters, ∃ addr,
        .returned i addr ∈ (groupStep s (.reconcile (a :: rest))).2 ∧
        addr ∈ a :: rest) ∧
    (∀ (s : GroupState) (a : String) (rest : List String),
      (groupStep s (.reconcile (a :: rest))).1 =
        { endpoints := a :: rest, waiters := [] }) ∧
    (∀ s : GroupState,
      (groupStep s (.reconcile [])).2 = [] ∧
      (groupStep s (.reconcile [])).1.waiters = s.waiters) ∧
    (∀ (s : GroupState) (i : Nat), i ∈ s.waiters →
      (groupStep s (.cancel i)).2 = [.cancelled i]) := by
  refine ⟨?_, ?_, ?_, ?_, ?_⟩
  · intro s i he; simp [groupStep, he]
  · intro s a rest i hi
    exact ⟨a, by simpa [groupStep] using
      List.mem_map_of_mem (fun j => GroupReturn.returned j a) hi,
      List.mem_cons_self a rest⟩
  · intro s a rest; simp [groupStep]
  · intro s; simp [groupStep]
  · intro s i hi; simp [groupStep, hi]

/-- C4 (witness): on the group with waiters 7 and 8 and no endpoints, a
new `getBestAddr` caller 9 blocks; a non-empty reconciliation wakes
waiter 7 with the installed address; cancelling waiter 7 returns it. -/
theorem endpointGroup_block_broadcast_witness :
    groupStep waitingGroup (.getBestAddr 9) =
      ({ endpoints := [], waiters := [7, 8, 9] }, []) ∧
    (∃ addr, .returned 7 addr ∈
        (groupStep waitingGroup (.reconcile ["10.0.0.1:8000"])).2 ∧
      addr ∈ ["10.0.0.1:8000"]) ∧
    (groupStep waitingGroup (.cancel 7)).2 = [.cancelled 7] :=
  ⟨endpointGroup_block_broadcast.1 waitingGroup 9 rfl,
   endpointGroup_block_broadcast.2.1 waitingGroup "10.0.0.1:8000" [] 7 (by decide),
   endpointGroup_block_broadcast.2.2.2.2 waitingGroup 7 (by decide)⟩

/-! ## Receive-loop lemmas -/

theorem recvLoop_err_replicate (cfg : MessengerCfg)
    (hsub : ∀ k, cfg.openSubOk k = true) :
    ∀ (n r : Nat) (rest : List RecvOutcome), r + n ≤ maxRestartAttempts + 1 →
      recvLoop cfg r (List.replicate n .err ++ rest) =
        { restartWaits :=
            (List.range' r n).map (fun k => min k maxRestartBackoffSec) ++
              (recvLoop cfg (r + n) rest).restartWaits,
          restarts := n + (recvLoop cfg (r + n) rest).restarts,
          msgSleeps := (recvLoop cfg (r + n) rest).msgSleeps,
          exit := (recvLoop cfg (r + n) rest).exit } := by
  intro n
  induction n with
  | zero =>
    intro r rest _
    simp [List.replicate]
  | succ m ih =>
    intro r rest hle
    have hgt : ¬ r > maxRestartAttempts := by
      simp only [maxRestartAttempts] at *; omega
    rw [List.replicate_succ, List.cons_append]
    simp only [recvLoop, if_neg hgt, hsub r, if_pos]
    rw [ih (r + 1) rest (by omega)]
    have hr : r + 1 + m = r + (m + 1) := by omega
    rw [hr, List.range'_succ, List.map_cons]
    simp [Nat.add_assoc, Nat.add_comm, Nat.add_left_comm]

/-- C5 (counterexample). Twenty-one consecutive `Receive` errors lead to
twenty-one subscription recreations without giving up — refuting "it gives
up (returns the error) only after maxRestartAttempts (20) restarts". -/
theorem recvLoop_21_restarts_cex :
    (recvLoop plainCfg 0 (List.replicate 21 .err)).restarts = 21 ∧
    (recvLoop plainCfg 0 (List.replicate 21 .err)).exit ≠ .gaveUp := by
  decide

/-- C5 (amended). On consecutive `Receive` errors the loop recreates the
subscription after waiting `min(restartAttempt seconds, 10s)` (so waits
0s, 1s, …, 10s, 10s, …); it gives up only once the restart counter
exceeds `maxRestartAttempts` (20) — that is, after twenty-one restarts, on
the twenty-second consecutive error; and a successful `Receive` resets the
restart counter to zero. -/
theorem recvLoop_restart_backoff (cfg : MessengerCfg)
    (hsub : ∀ k, cfg.openSubOk k = true) :
    (recvLoop cfg 0 (List.replicate 22 .err)).exit = .gaveUp ∧
    (recvLoop cfg 0 (List.replicate 22 .err)).restarts = 21 ∧
    (recvLoop cfg 0 (List.replicate 22 .err)).restartWaits =
      (List.range 21).map (fun k => min k maxRestartBackoffSec) ∧
    (∀ (a nErr : Nat) (rest : List RecvOutcome),
      recvLoop cfg a (.ok nErr :: rest) =
        { restartWaits := (recvLoop cfg 0 rest).restartWaits,
          restarts := (recvLoop cfg 0 rest).restarts,
          msgSleeps :=
            (if nErr > 0 then
              some (consecutiveErrBackoff nErr cfg.errorMaxBackoff)
             else none) :: (recvLoop cfg 0 rest).msgSleeps,
          exit := (recvLoop cfg 0 rest).exit }) := by
  have h21 := recvLoop_err_replicate cfg hsub 21 0 [.err] (by norm_num [maxRestartAttempts])
  have hend : recvLoop cfg 21 [RecvOutcome.err] =
      { restartWaits := [], restarts := 0, msgSleeps := [], exit := .gaveUp } := rfl
  have h22 : List.replicate 22 RecvOutcome.err =
      List.replicate 21 RecvOutcome.err ++ [RecvOutcome.err] :=
    List.replicate_succ' 21 RecvOutcome.err
  refine ⟨?_, ?_, ?_, ?_⟩
  · rw [h22, h21]; simp [hend]
  · rw [h22, h21]; simp [hend]
  · rw [h22, h21]; simp [hend, List.range_eq_range']
  · intro a nErr rest; rfl

/-- C5 (witness): with a subscription recreation that always succeeds,
twenty-two consecutive errors give up after twenty-one restarts. -/
theorem recvLoop_restart_backoff_witness :
    (recvLoop plainCfg 0 (List.replicate 22 .err)).exit = .gaveUp ∧
    (recvLoop plainCfg 0 (List.replicate 22 .err)).restarts = 21 :=
  ⟨(recvLoop_restart_backoff plainCfg (fun _ => rfl)).1,
   (recvLoop_restart_backoff plainCfg (fun _ => rfl)).2.1⟩

/-- C9. After dispatching a message, with consecutive-error counter
`nErr > 0` the loop sleeps exactly `min(nErr seconds, ErrorMaxBackoff)`
before the next `Receive`; with `nErr = 0` it does not sleep. -/
theorem consecutive_error_sleep (cfg : MessengerCfg) (a nErr : Nat)
    (rest : List RecvOutcome) :
    (nErr > 0 →
      (recvLoop cfg a (.ok nErr :: rest)).msgSleeps.head? =
        some (some (min ((nErr : Int) * 1000000000) cfg.errorMaxBackoff))) ∧
    (nErr = 0 →
      (recvLoop cfg a (.ok nErr :: rest)).msgSleeps.head? = some none) := by
  have hmin : ∀ k : Int, consecutiveErrBackoff k cfg.errorMaxBackoff =
      min (k * 1000000000) cfg.errorMaxBackoff := by
    intro k
    simp only [consecutiveErrBackoff, min_def]
    split <;> split <;> omega
  constructor
  · intro hpos
    simp [recvLoop, hpos, hmin]
  · intro hz
    simp [recvLoop, hz]

/-- C9 (witness): three consecutive errors against a 10-second
`ErrorMaxBackoff` sleep exactly 3 seconds. -/
theorem consecutive_error_sleep_witness :
    (3 : Nat) > 0 ∧
    (recvLoop plainCfg 0 [.ok 3]).msgSleeps.head? =
      some (some (min ((3 : Int) * 1000000000) plainCfg.errorMaxBackoff)) :=
  ⟨by decide, (consecutive_error_sleep plainCfg 0 3 []).1 (by decide)⟩

/-- C6 (counterexample). A backend answering 500 with an error payload is
published verbatim — not wrapped in an OpenAI-style envelope — and the
message is Acked with the consecutive-error counter left unchanged at 5,
refuting "every non-2xx response … results in an OpenAI-style
`{"error":{"message":...}}` body … and increments the consecutive-error
counter". -/
theorem backend_non2xx_passthrough_cex :
    handleRequest 5 okMsg backend500Env =
      some { consecutiveErrors := 5, acked := true, nacked := false,
             published :=
               some (.response 500
                 (.backendPayload "\x7b\"err\":\"oh no!\"\x7d" true)) } := rfl

/-- C6 (amended). A successful publish is followed by Ack, and a published
status `< 300` resets the consecutive-error counter; a status `≥ 300`
leaves the counter unchanged when the response marshalled, but a
`json.Marshal` failure (a backend payload whose bytes are not valid JSON)
increments the counter and sends a nil message body; a publish error
increments the counter (on top of any marshal increment) and Nacks —
exactly when the message is Nackable — without Acking; an internal error
(here: model not found) publishes an OpenAI-style envelope, is still Acked
after a successful publish, and increments the counter; and a backend
response is handed to `sendResponse` verbatim with its own status code, so
a non-2xx backend response with valid-JSON bytes is published as-is
without touching the counter. -/
theorem messenger_ack_nack_discipline (n : Nat) (nackable : Bool)
    (body : RespBody) (sc : Nat) :
    (sendResponse n true nackable body sc).acked = true ∧
    (sendResponse n true nackable body sc).nacked = false ∧
    (sc < 300 → (sendResponse n true nackable body sc).consecutiveErrors = 0) ∧
    (¬ sc < 300 → RespBody.marshals body = true →
      (sendResponse n true nackable body sc).consecutiveErrors = n ∧
      (sendResponse n true nackable body sc).published =
        some (.response sc body)) ∧
    (¬ sc < 300 → RespBody.marshals body = false →
      (sendResponse n true nackable body sc).consecutiveErrors = n + 1 ∧
      (sendResponse n true nackable body sc).published = some .nilBody) ∧
    (sendResponse n false nackable body sc).acked = false ∧
    (sendResponse n false nackable body sc).nacked = nackable ∧
    (RespBody.marshals body = true →
      (sendResponse n false nackable body sc).consecutiveErrors = n + 1) ∧
    (RespBody.marshals body = false →
      (sendResponse n false nackable body sc).consecutiveErrors = n + 2) ∧
    (sendResponse n false nackable body sc).published = none ∧
    (∀ (msg : PubSubMsg) (req : Request) (env : HandleEnv),
      parseRequest msg = (some req, none) → env.lookup = .notFound →
      env.publishOk = true →
      handleRequest n msg env =
        some { consecutiveErrors := n + 1, acked := true, nacked := false,
               published :=
                 some (.response 404 (.envelope "model not found")) }) ∧
    (∀ (msg : PubSubMsg) (req : Request) (env : HandleEnv)
        (reply : BackendReply),
      parseRequest msg = (some req, none) → env.lookup = .found →
      env.awaitOk = true → env.backendResult = some reply →
      handleRequest n msg env =
        some (sendResponse n env.publishOk env.nackable
          (.backendPayload reply.payload reply.validJson) reply.status)) := by
  refine ⟨?_, ?_, ?_, ?_, ?_, ?_, ?_, ?_, ?_, ?_, ?_, ?_⟩
  · simp [sendResponse]
  · simp [sendResponse]
  · intro hlt; simp [sendResponse, hlt]
  · intro hge hm; simp [sendResponse, hge, hm]
  · intro hge hm; simp [sendResponse, hge, hm]
  · simp [sendResponse]
  · simp [sendResponse]
  · intro hm; simp [sendResponse, hm]
  · intro hm; simp [sendResponse, hm]
  · simp [sendResponse]
  · intro msg req env hpr hl hpub
    simp [handleRequest, hpr, hl, jsonError, sendResponse, RespBody.marshals,
      hpub]
  · intro msg req env reply hpr hl hok hbr
    simp [handleRequest, hpr, hl, hok, hbr]

/-- C6 (witness): the discipline evaluated on concrete inputs — a
successful 200 publish resets the counter, a failed publish of a
marshalling body increments it and Nacks, a 500 backend payload of
non-JSON bytes fails to marshal so the counter increments and a nil body
is sent, and an unknown model publishes a 404 envelope and increments. -/
theorem messenger_ack_nack_discipline_witness :
    (sendResponse 4 true true (.backendPayload "\"ok\"" true) 200).consecutiveErrors = 0 ∧
    (sendResponse 4 false true (.backendPayload "\"ok\"" true) 200).consecutiveErrors = 5 ∧
    (sendResponse 4 false true (.backendPayload "\"ok\"" true) 200).nacked = true ∧
    ¬ (500 : Nat) < 300 ∧
    RespBody.marshals (.backendPayload "" false) = false ∧
    (sendResponse 4 true true (.backendPayload "" false) 500).consecutiveErrors = 5 ∧
    (sendResponse 4 true true (.backendPayload "" false) 500).published =
      some .nilBody ∧
    handleRequest 4 okMsg notFoundEnv =
      some { consecutiveErrors := 5, acked := true, nacked := false,
             published :=
               some (.response 404 (.envelope "model not found")) } :=
  ⟨(messenger_ack_nack_discipline 4 true (.backendPayload "\"ok\"" true) 200).2.2.1
      (by decide),
   (messenger_ack_nack_discipline 4 true (.backendPayload "\"ok\"" true) 200).2.2.2.2.2.2.2.1
      rfl,
   (messenger_ack_nack_discipline 4 true (.backendPayload "\"ok\"" true) 200).2.2.2.2.2.2.1,
   by decide,
   rfl,
   ((messenger_ack_nack_discipline 4 true (.backendPayload "" false) 500).2.2.2.2.1
      (by decide) rfl).1,
   ((messenger_ack_nack_discipline 4 true (.backendPayload "" false) 500).2.2.2.2.1
      (by decide) rfl).2,
   (messenger_ack_nack_discipline 4 true (.backendPayload "" false) 500).2.2.2.2.2.2.2.2.2.2.1
      okMsg okReq notFoundEnv rfl rfl rfl⟩

/-- C7. On a message whose envelope parses but whose `body` does not
decode as a JSON object, `parseRequest` returns a nil request together
with the error, and `handleRequest` — which passes that request straight
to `sendResponse`, where `req.msg.LoggableID` and `req.metadata` are read
unconditionally — dereferences the nil pointer: no 400 response is
produced (modelled as `none`).  The envelope-unmarshal error path, by
contrast, returns a non-nil request and does produce a response. -/
theorem parseRequest_nil_crash :
    parseRequest badBodyMsg = (none, some .decodingBody) ∧
    handleRequest 0 badBodyMsg benignEnv = none ∧
    (handleRequest 0 badEnvelopeMsg benignEnv).isSome = true :=
  ⟨rfl, rfl, rfl⟩

/-- C8. On a message whose envelope parses and whose body decodes to an
object with a string `model` field, `parseRequest` succeeds; it defaults
an empty path to `"/v1/completions"` and adds a leading `"/"` to a path
lacking one; it records the requested model and splits it into model and
adapter by the delimiter convention; and exactly when the adapter is
non-empty the body's `model` field is rewritten to the adapter and the
body re-marshalled, otherwise the body is left unchanged. -/
theorem parseRequest_shape (msg : PubSubMsg) (p : MsgPayload)
    (fields : List (String × JValue)) (s : String)
    (hp : msg.payload = some p) (hb : p.body = some (.obj fields))
    (hm : fields.lookup "model" = some (.str s)) :
    ∃ req, parseRequest msg = (some req, none) ∧
      req.metadata = p.metadata ∧
      (p.path = "" → req.path = "/v1/completions") ∧
      (hasLeadingSlash p.path = true → req.path = p.path) ∧
      (p.path ≠ "" → hasLeadingSlash p.path = false →
        req.path = "/" ++ p.path) ∧
      req.requestedModel = s ∧
      (req.model, req.adapter) = SplitModelAdapter s ∧
      (req.adapter = "" → req.body = some (.obj fields)) ∧
      (req.adapter ≠ "" →
        req.body = some (.obj (setField fields "model" (.str req.adapter)))) := by
  simp only [parseRequest, hp, hb, hm]
  by_cases hsplit : (SplitModelAdapter s).2 = ""
  · refine ⟨_, by rw [if_pos hsplit], rfl, ?_, ?_, ?_, rfl, by simp, fun _ => rfl,
      fun hne => absurd hsplit hne⟩
    · intro hpe; simp [hpe]
    · intro hsl
      have hpe : p.path ≠ "" := by
        intro he; rw [he] at hsl; exact absurd hsl (by simp [hasLeadingSlash])
      simp [hpe, hsl]
    · intro hpe hsl; simp [hpe, hsl]
  · refine ⟨_, by rw [if_neg hsplit], rfl, ?_, ?_, ?_, rfl, by simp, fun he =>
      absurd he hsplit, fun _ => rfl⟩
    · intro hpe; simp [hpe]
    · intro hsl
      have hpe : p.path ≠ "" := by
        intro he; rw [he] at hsl; exact absurd hsl (by simp [hasLeadingSlash])
      simp [hpe, hsl]
    · intro hpe hsl; simp [hpe, hsl]

/-- C8 (witness): the message `adapterMsg` — path `"v1/chat"` (no leading
slash), body `{"model":"m3_a3","prompt":"hi"}` — parses with path
`"/v1/chat"`, model `"m3"`, adapter `"a3"`, and its body rewritten to
`{"model":"a3","prompt":"hi"}`. -/
theorem parseRequest_shape_witness :
    ∃ req, parseRequest adapterMsg = (some req, none) ∧
      req.metadata = adapterPayload.metadata ∧
      (adapterPayload.path = "" → req.path = "/v1/completions") ∧
      (hasLeadingSlash adapterPayload.path = true →
        req.path = adapterPayload.path) ∧
      (adapterPayload.path ≠ "" → hasLeadingSlash adapterPayload.path = false →
        req.path = "/" ++ adapterPayload.path) ∧
      req.requestedModel = "m3_a3" ∧
      (req.model, req.adapter) = SplitModelAdapter "m3_a3" ∧
      (req.adapter = "" → req.body = some (.obj adapterFields)) ∧
      (req.adapter ≠ "" →
        req.body =
          some (.obj (setField adapterFields "model" (.str req.adapter)))) :=
  parseRequest_shape adapterMsg adapterPayload adapterFields "m3_a3" rfl rfl rfl

/-- C10 (counterexample). For the non-empty model `"a_b"` (containing the
delimiter) and adapter `"c"`, the merged string `"a_b_c"` splits back to
`("a", "b_c")`, not `("a_b", "c")` — refuting the round-trip for all
non-empty model/adapter pairs.  (`MergeModelAdapter` is not injective on
that domain, so no split function could satisfy the claim as stated.) -/
theorem split_merge_roundtrip_cex :
    ("a_b" : String) ≠ "" ∧ ("c" : String) ≠ "" ∧
    SplitModelAdapter (MergeModelAdapter "a_b" "c") = ("a", "b_c") ∧
    SplitModelAdapter (MergeModelAdapter "a_b" "c") ≠ ("a_b", "c") := by
  refine ⟨by decide, by decide, by decide, by decide⟩

theorem cutUnderscore_append (m a : List Char) (hm : ('_' : Char) ∉ m) :
    cutUnderscore (m ++ '_' :: a) = some (m, a) := by
  induction m with
  | nil => simp [cutUnderscore]
  | cons c cs ih =>
    have hc : c ≠ '_' := fun he => hm (he ▸ List.mem_cons_self c cs)
    have hcs : ('_' : Char) ∉ cs := fun hx => hm (List.mem_cons_of_mem _ hx)
    simp [cutUnderscore, hc, ih hcs]

/-- C10 (amended). Splitting a merged `"<model>_<adapter>"` string
recovers exactly the original pair for all non-empty model and adapter
provided the model itself contains no underscore (the split cuts at the
first underscore, so the adapter may contain further underscores). -/
theorem split_merge_roundtrip (m a : String)
    (hm : ('_' : Char) ∉ m.data) (_hmne : m ≠ "") (hane : a ≠ "") :
    SplitModelAdapter (MergeModelAdapter m a) = (m, a) := by
  unfold MergeModelAdapter
  rw [if_neg hane]
  unfold SplitModelAdapter
  have hdata : (m ++ "_" ++ a).data = m.data ++ '_' :: a.data := by
    rw [String.data_append, String.data_append]
    simp
  rw [hdata, cutUnderscore_append m.data a.data hm]

/-- C10 (witness): the round-trip holds for model `"llama"` and adapter
`"lora-v2"`. -/
theorem split_merge_roundtrip_witness :
    ('_' : Char) ∉ ("llama" : String).data ∧ ("llama" : String) ≠ "" ∧
    ("lora-v2" : String) ≠ "" ∧
    SplitModelAdapter (MergeModelAdapter "llama" "lora-v2") =
      ("llama", "lora-v2") :=
  ⟨by decide, by decide, by decide,
    split_merge_roundtrip "llama" "lora-v2" (by decide) (by decide) (by decide)⟩

end KubeAI
